import Mathlib

set_option maxHeartbeats 1000000

namespace NightAssistant

/-- Python runtime values flowing through the agent: the JSON-representable
subset produced by decoding oracle output. Python floats are idealized as
exact rationals (no claim below depends on binary rounding). -/
inductive Value where
  | vnone
  | vbool (b : Bool)
  | vint (n : Int)
  | vfloat (q : Rat)
  | vstr (s : String)
  | vlist (xs : List Value)
  | vdict (kvs : List (String × Value))
deriving Repr


/-- Association-list lookup modelling Python dict indexing; real dicts have
unique keys, so first-match lookup coincides with dict semantics. -/
def lookupKey : List (String × Value) → String → Option Value
  | [], _ => none
  | (k, v) :: kvs, key => if k = key then some v else lookupKey kvs key

/-- Python dict assignment: overwrite in place when the key exists (keeping
its original position, as CPython does), else append. -/
def dictSet (kvs : List (String × Value)) (key : String) (v : Value) : List (String × Value) :=
  if kvs.any (fun p => p.1 = key) then
    kvs.map (fun p => if p.1 = key then (key, v) else p)
  else kvs ++ [(key, v)]

/-- Python dict lookup on a value; yields none when the value is not a mapping. -/
def dictGet (v : Value) (key : String) : Option Value :=
  match v with
  | .vdict kvs => lookupKey kvs key
  | _ => none

/-- Python dict lookup with a default value. -/
def dictGetD (v : Value) (key : String) (dflt : Value) : Value :=
  (dictGet v key).getD dflt

def isDict : Value → Bool
  | .vdict _ => true
  | _ => false

def pyTypeName : Value → String
  | .vnone => "NoneType"
  | .vbool _ => "bool"
  | .vint _ => "int"
  | .vfloat _ => "float"
  | .vstr _ => "str"
  | .vlist _ => "list"
  | .vdict _ => "dict"

/-- Python truthiness. -/
def pyTruthy : Value → Bool
  | .vnone => false
  | .vbool b => b
  | .vint n => decide (n ≠ 0)
  | .vfloat q => decide (q ≠ 0)
  | .vstr s => decide (s ≠ "")
  | .vlist xs => !xs.isEmpty
  | .vdict kvs => !kvs.isEmpty

/-- Single-quote character, built by code point to keep literals plain. -/
def squote : String := String.singleton (Char.ofNat 39)

/-- ASCII whitespace as stripped by Python str.strip (unicode whitespace is
outside this model). -/
def isPyWs (c : Char) : Bool :=
  c = ' ' || c = Char.ofNat 9 || c = Char.ofNat 10 || c = Char.ofNat 13 ||
    c = Char.ofNat 11 || c = Char.ofNat 12

def trimChars (cs : List Char) : List Char :=
  ((cs.dropWhile isPyWs).reverse.dropWhile isPyWs).reverse

/-- Python str.strip() with no argument. -/
def strTrim (s : String) : String := String.mk (trimChars s.toList)

/-- Python str.lower() restricted to ASCII case mapping. -/
def strLower (s : String) : String := String.mk (s.toList.map Char.toLower)

/-- Python str.split with a one-character separator. -/
def splitChar (sep : Char) : List Char → List (List Char)
  | [] => [[]]
  | c :: rest =>
    let r := splitChar sep rest
    if c = sep then [] :: r
    else
      match r with
      | h :: t => (c :: h) :: t
      | [] => [[c]]

/-- Minimal escaping used inside Python repr of strings. -/
def strEscapeSingle (s : String) : String :=
  String.join (s.toList.map (fun c =>
    if c = Char.ofNat 92 then "\\\\"
    else if c = Char.ofNat 39 then "\\" ++ squote
    else if c = Char.ofNat 10 then "\\n"
    else if c = Char.ofNat 13 then "\\r"
    else if c = Char.ofNat 9 then "\\t"
    else String.singleton c))

/-- Decimal rendering of the rational float idealization; Python prints the
shortest round-tripping decimal of a binary float, which is approximated here. -/
def floatRepr (q : Rat) : String :=
  if q.den = 1 then toString q.num ++ ".0" else toString q

mutual
/-- Python repr restricted to our value domain; strings are always rendered
with single quotes (Python switches quote style in rare cases). -/
def pyRepr : Value → String
  | .vnone => "None"
  | .vbool b => if b then "True" else "False"
  | .vint n => toString n
  | .vfloat q => floatRepr q
  | .vstr s => squote ++ strEscapeSingle s ++ squote
  | .vlist xs => "[" ++ String.intercalate ", " (pyReprList xs) ++ "]"
  | .vdict kvs => "\x7b" ++ String.intercalate ", " (pyReprPairs kvs) ++ "\x7d"

def pyReprList : List Value → List String
  | [] => []
  | v :: vs => pyRepr v :: pyReprList vs

def pyReprPairs : List (String × Value) → List String
  | [] => []
  | (k, v) :: kvs => (squote ++ strEscapeSingle k ++ squote ++ ": " ++ pyRepr v) :: pyReprPairs kvs
end

/-- Python str() conversion. -/
def pyStr (v : Value) : String :=
  match v with
  | .vstr s => s
  | _ => pyRepr v

/-- The exception kinds raised by conversions in this code; exactly the kinds
named in the except clause of the per-parameter converter. -/
inductive PyErr where
  | valueError (msg : String)
  | typeError (msg : String)
  | jsonDecodeError (msg : String)
deriving Repr, DecidableEq

def digitVal (c : Char) : Nat := c.toNat - 48

/-- Digit run with the Python underscore rule: an underscore may appear only
between two digits; pendingUnderscore records that the previous character was
an underscore still waiting for a digit. -/
def pyDigitsGo (acc : Nat) (pendingUnderscore : Bool) : List Char → Option Nat
  | [] => if pendingUnderscore then none else some acc
  | c :: cs =>
    if c.isDigit then pyDigitsGo (acc * 10 + digitVal c) false cs
    else if c = Char.ofNat 95 && !pendingUnderscore then pyDigitsGo acc true cs
    else none

def pyParseDigits : List Char → Option Nat
  | [] => none
  | c :: cs => if c.isDigit then pyDigitsGo (digitVal c) false cs else none

/-- Python int(string): optional surrounding whitespace, optional sign, digits. -/
def pyIntOfString (s : String) : Option Int :=
  match trimChars s.toList with
  | '+' :: cs => (pyParseDigits cs).map (fun n => (n : Int))
  | '-' :: cs => (pyParseDigits cs).map (fun n => -(n : Int))
  | cs => (pyParseDigits cs).map (fun n => (n : Int))

/-- Python int(float) truncates toward zero. -/
def ratTrunc (q : Rat) : Int := if q < 0 then -((-q).floor) else q.floor

/-- Python int(value). -/
def pyIntE : Value → Except PyErr Value
  | .vbool b => .ok (.vint (if b then 1 else 0))
  | .vint n => .ok (.vint n)
  | .vfloat q => .ok (.vint (ratTrunc q))
  | .vstr s =>
    match pyIntOfString s with
    | some n => .ok (.vint n)
    | none => .error (.valueError ("invalid literal for int() with base 10: " ++ squote ++ s ++ squote))
  | v => .error (.typeError ("int() argument must be a string, a bytes-like object or a real number, not " ++ squote ++ pyTypeName v ++ squote))

def digitsToNat (ds : List Char) : Nat := ds.foldl (fun a c => a * 10 + digitVal c) 0

def pyFloatExp (base : Rat) (cs : List Char) : Option Rat :=
  let p : Int × List Char :=
    match cs with
    | '+' :: r => (1, r)
    | '-' :: r => (-1, r)
    | r => (1, r)
  let q := List.span Char.isDigit p.2
  if q.1 = [] ∨ q.2 ≠ [] then none
  else some (base * (10 : Rat) ^ (p.1 * (digitsToNat q.1 : Int)))

/-- Python float(string) for finite decimal forms; IEEE specials (inf, nan)
and underscores are outside this model and no claim exercises them. -/
def pyFloatOfString (s : String) : Option Rat :=
  let cs0 := trimChars s.toList
  let p0 : Rat × List Char :=
    match cs0 with
    | '+' :: r => (1, r)
    | '-' :: r => (-1, r)
    | r => (1, r)
  let pInt := List.span Char.isDigit p0.2
  let pFrac : List Char × List Char :=
    match pInt.2 with
    | '.' :: r =>
      let q := List.span Char.isDigit r
      (q.1, q.2)
    | r => ([], r)
  if pInt.1 = [] ∧ pFrac.1 = [] ∧ pInt.2 = pFrac.2 then none
  else if pInt.1 = [] ∧ pFrac.1 = [] then none
  else
    let base : Rat := p0.1 * ((digitsToNat pInt.1 : Rat) + (digitsToNat pFrac.1 : Rat) / (10 : Rat) ^ pFrac.1.length)
    match pFrac.2 with
    | [] => some base
    | 'e' :: r => pyFloatExp base r
    | 'E' :: r => pyFloatExp base r
    | _ => none

/-- Python float(value). -/
def pyFloatE : Value → Except PyErr Value
  | .vbool b => .ok (.vfloat (if b then 1 else 0))
  | .vint n => .ok (.vfloat (n : Rat))
  | .vfloat q => .ok (.vfloat q)
  | .vstr s =>
    match pyFloatOfString s with
    | some q => .ok (.vfloat q)
    | none => .error (.valueError ("could not convert string to float: " ++ squote ++ s ++ squote))
  | v => .error (.typeError ("float() argument must be a string or a real number, not " ++ squote ++ pyTypeName v ++ squote))

def jsonWsChar (c : Char) : Bool :=
  c = ' ' || c = Char.ofNat 9 || c = Char.ofNat 10 || c = Char.ofNat 13

def skipWs (cs : List Char) : List Char := cs.dropWhile jsonWsChar

def hexVal (c : Char) : Option Nat :=
  if c.isDigit then some (c.toNat - 48)
  else if 'a' ≤ c ∧ c ≤ 'f' then some (c.toNat - 87)
  else if 'A' ≤ c ∧ c ≤ 'F' then some (c.toNat - 55)
  else none

/-- JSON string body after the opening quote; strict mode rejects raw control
characters, as Python json does. -/
def jsonStringGo (acc : List Char) : List Char → Except String (String × List Char)
  | [] => .error "Unterminated string"
  | c :: rest =>
    if c = '"' then .ok (String.mk acc.reverse, rest)
    else if c = Char.ofNat 92 then
      match rest with
      | [] => .error "Unterminated string"
      | e :: rest2 =>
        if e = '"' then jsonStringGo ('"' :: acc) rest2
        else if e = Char.ofNat 92 then jsonStringGo (Char.ofNat 92 :: acc) rest2
        else if e = '/' then jsonStringGo ('/' :: acc) rest2
        else if e = 'b' then jsonStringGo (Char.ofNat 8 :: acc) rest2
        else if e = 'f' then jsonStringGo (Char.ofNat 12 :: acc) rest2
        else if e = 'n' then jsonStringGo (Char.ofNat 10 :: acc) rest2
        else if e = 'r' then jsonStringGo (Char.ofNat 13 :: acc) rest2
        else if e = 't' then jsonStringGo (Char.ofNat 9 :: acc) rest2
        else if e = 'u' then
          match rest2 with
          | h1 :: h2 :: h3 :: h4 :: rest3 =>
            match hexVal h1, hexVal h2, hexVal h3, hexVal h4 with
            | some a, some b, some c2, some d =>
              jsonStringGo (Char.ofNat (((a * 16 + b) * 16 + c2) * 16 + d) :: acc) rest3
            | _, _, _, _ => .error "Invalid unicode escape"
          | _ => .error "Invalid unicode escape"
        else .error "Invalid escape"
    else if c.toNat < 32 then .error "Invalid control character"
    else jsonStringGo (c :: acc) rest

def jsonExpGo (cs : List Char) : Except String (Option Int × List Char) :=
  let p : Int × List Char :=
    match cs with
    | '+' :: r => (1, r)
    | '-' :: r => (-1, r)
    | r => (1, r)
  let q := List.span Char.isDigit p.2
  if q.1 = [] then .error "Invalid number"
  else .ok (some (p.1 * (digitsToNat q.1 : Int)), q.2)

def jsonExp : List Char → Except String (Option Int × List Char)
  | 'e' :: r => jsonExpGo r
  | 'E' :: r => jsonExpGo r
  | cs => .ok (none, cs)

/-- JSON number grammar: optional minus, integer part without leading zeros,
optional fraction, optional exponent. -/
def jsonNumber (cs : List Char) : Except String (Value × List Char) :=
  let p : Bool × List Char :=
    match cs with
    | '-' :: r => (true, r)
    | r => (false, r)
  match p.2 with
  | [] => .error "Expecting value"
  | c :: _ =>
    if ¬ c.isDigit then .error "Expecting value"
    else
      let pInt : List Char × List Char :=
        match p.2 with
        | '0' :: r => (['0'], r)
        | r => List.span Char.isDigit r
      let pFrac : Option (List Char) × List Char :=
        match pInt.2 with
        | '.' :: r =>
          let q := List.span Char.isDigit r
          (some q.1, q.2)
        | r => (none, r)
      match pFrac.1 with
      | some [] => .error "Expecting digit"
      | fOpt =>
        match jsonExp pFrac.2 with
        | .error e => .error e
        | .ok (eOpt, rest) =>
          let ipN := digitsToNat pInt.1
          match fOpt, eOpt with
          | none, none => .ok (.vint (if p.1 then -(ipN : Int) else (ipN : Int)), rest)
          | _, _ =>
            let frac := fOpt.getD []
            let mag : Rat :=
              ((ipN : Rat) + (digitsToNat frac : Rat) / (10 : Rat) ^ frac.length) *
                (10 : Rat) ^ (eOpt.getD 0)
            .ok (.vfloat (if p.1 then -mag else mag), rest)

mutual
/-- JSON value at the current position; fuel bounds the recursion and is sized
generously by the top-level entry point. -/
def jsonValue : Nat → List Char → Except String (Value × List Char)
  | 0, _ => .error "Out of fuel"
  | fuel + 1, cs =>
    match cs with
    | [] => .error "Expecting value"
    | c :: rest =>
      if c = '"' then
        match jsonStringGo [] rest with
        | .error e => .error e
        | .ok (s, r) => .ok (.vstr s, r)
      else if c = 't' then
        if ['r', 'u', 'e'].isPrefixOf rest then .ok (.vbool true, rest.drop 3)
        else .error "Expecting value"
      else if c = 'f' then
        if ['a', 'l', 's', 'e'].isPrefixOf rest then .ok (.vbool false, rest.drop 4)
        else .error "Expecting value"
      else if c = 'n' then
        if ['u', 'l', 'l'].isPrefixOf rest then .ok (.vnone, rest.drop 3)
        else .error "Expecting value"
      else if c = '[' then
        match skipWs rest with
        | ']' :: r => .ok (.vlist [], r)
        | r => jsonArrayItems fuel r []
      else if c = Char.ofNat 123 then
        match skipWs rest with
        | r =>
          if r.head? = some (Char.ofNat 125) then .ok (.vdict [], r.tail)
          else jsonObjectItems fuel r []
      else jsonNumber cs

def jsonArrayItems : Nat → List Char → List Value → Except String (Value × List Char)
  | 0, _, _ => .error "Out of fuel"
  | fuel + 1, cs, acc =>
    match jsonValue fuel cs with
    | .error e => .error e
    | .ok (v, rest) =>
      match skipWs rest with
      | ',' :: r => jsonArrayItems fuel (skipWs r) (acc ++ [v])
      | ']' :: r => .ok (.vlist (acc ++ [v]), r)
      | _ => .error "Expecting delimiter"

def jsonObjectItems : Nat → List Char → List (String × Value) → Except String (Value × List Char)
  | 0, _, _ => .error "Out of fuel"
  | fuel + 1, cs, acc =>
    match cs with
    | '"' :: rest =>
      match jsonStringGo [] rest with
      | .error e => .error e
      | .ok (key, rest2) =>
        match skipWs rest2 with
        | ':' :: rest3 =>
          match jsonValue fuel (skipWs rest3) with
          | .error e => .error e
          | .ok (v, rest4) =>
            let acc2 := dictSet acc key v
            match skipWs rest4 with
            | ',' :: rest5 => jsonObjectItems fuel (skipWs rest5) acc2
            | rest5 =>
              if rest5.head? = some (Char.ofNat 125) then .ok (.vdict acc2, rest5.tail)
              else .error "Expecting delimiter"
        | _ => .error "Expecting colon"
    | _ => .error "Expecting property name"
end

/-- Python json.loads: a complete JSON document with surrounding whitespace.
Duplicate object keys follow dict-assignment semantics (last value wins). -/
def jsonLoads (s : String) : Except String Value :=
  let cs := skipWs s.toList
  match jsonValue (4 * (s.length + 1)) cs with
  | .error e => .error e
  | .ok (v, rest) => if skipWs rest = [] then .ok v else .error "Extra data"

/-- Translation of the converter named after convert-to-bool in run_agent.py
and base_subagent.py: textual values compare lower-cased against true, 1, yes;
anything else takes generic truthiness. -/
def convertToBool (v : Value) : Value :=
  match v with
  | .vstr s => .vbool (strLower s = "true" || strLower s = "1" || strLower s = "yes")
  | _ => .vbool (pyTruthy v)

/-- Translation of the converter named after convert-to-list: textual values
are JSON-parsed, falling back to comma-splitting with per-item trim; lists
pass through; anything else is wrapped in a singleton list. -/
def convertToList (v : Value) : Value :=
  match v with
  | .vstr s =>
    match jsonLoads s with
    | .ok parsed => parsed
    | .error _ =>
      .vlist ((splitChar ',' s.toList).map (fun item => Value.vstr (String.mk (trimChars item))))
  | .vlist xs => .vlist xs
  | _ => .vlist [v]

/-- Translation of the converter named after convert-to-dict: a textual value
is JSON-parsed and a decode failure is raised to the caller (which catches
it); mappings pass through; anything else is passed back with a logged
warning. -/
def convertToDictE (v : Value) : Except PyErr Value :=
  match v with
  | .vstr s =>
    match jsonLoads s with
    | .ok parsed => .ok parsed
    | .error e => .error (.jsonDecodeError e)
  | .vdict kvs => .ok (.vdict kvs)
  | _ => .ok v

/-- Body of the try block of the per-parameter converter: None short-circuits,
then dispatch on the declared type tag; an unrecognized or non-string tag
falls through to str(). -/
def convertSingleParameterE (v : Value) (ptype : Value) : Except PyErr Value :=
  match v with
  | .vnone => .ok Value.vnone
  | w =>
    match ptype with
    | .vstr t =>
      if t = "int" then pyIntE w
      else if t = "float" then pyFloatE w
      else if t = "bool" then .ok (convertToBool w)
      else if t = "list" then .ok (convertToList w)
      else if t = "dict" then convertToDictE w
      else .ok (.vstr (pyStr w))
    | _ => .ok (.vstr (pyStr w))

/-- The per-parameter converter: every ValueError, TypeError and JSON decode
error raised by the dispatch above is caught and the raw value substituted
(the parameter name argument of the source is used only for logging and is
omitted here). -/
def convertSingleParameter (v : Value) (ptype : Value) : Value :=
  match convertSingleParameterE v ptype with
  | .ok r => r
  | .error _ => v

/-- Translation of the parameter-types converter: per-key conversion of args
against the method spec; keys absent from the spec pass through with a logged
warning. Specs malformed enough to make Python raise (a non-mapping
parameters entry) are treated as declaring nothing. -/
def convertParameterTypes (args : List (String × Value)) (methodSpec : Value) : List (String × Value) :=
  let parametersSpec := dictGetD methodSpec "parameters" (Value.vdict [])
  args.foldl
    (fun acc kv =>
      match dictGet parametersSpec kv.1 with
      | none => dictSet acc kv.1 kv.2
      | some pspec => dictSet acc kv.1 (convertSingleParameter kv.2 (dictGetD pspec "type" (Value.vstr "str"))))
    []

/-- One row of the durable memory store (the AgentMemory table): the scope
column (none for rows the main command creates, since it sets no agent type),
the JSON value column, and a count of the result updates applied to the row.
The store lists rows in creation order. -/
structure MemRecord where
  agentType : Option String
  value : Value
  updates : Nat
deriving Repr

/-- Translation of the main command's memory read in run_agent.py: every row
of the store in creation order, with no scope filter. -/
def getPreviousMemories (store : List MemRecord) : List Value :=
  store.map (fun r => r.value)

/-- Translation of the subagent memory read in base_subagent.py: only the
rows whose agent type equals this agent's, in creation order. -/
def subagentGetPreviousMemories (agentType : String) (store : List MemRecord) : List Value :=
  (store.filter (fun r => r.agentType = some agentType)).map (fun r => r.value)

/-- The read a loop with the given scope performs at each iteration: the main
loop (scope none) uses the unfiltered read, a delegated loop the filtered
one. -/
def readMemories : Option String → List MemRecord → List Value
  | none, store => getPreviousMemories store
  | some ty, store => subagentGetPreviousMemories ty store

/-- Translation of the memory-record result update: copy the stored decision
dict and assign its result key (stored values are always dicts; anything else
passes through untouched). -/
def setResult (v : Value) (result : Value) : Value :=
  match v with
  | .vdict kvs => .vdict (dictSet kvs "result" result)
  | w => w

/-- Outcome of one attempt against the oracle backend as seen inside the
JSON-mode generation call: a transport-level failure (a requests
RequestException), a non-transport failure (for example an undecodable
payload), or a successfully decoded JSON value. -/
inductive BackendResult where
  | transportErr (msg : String)
  | invalid (msg : String)
  | decoded (v : Value)

/-- Failures surfaced by the oracle wrapper: the transport kind versus
everything else (LLMException). -/
inductive LLMFailure where
  | transport (msg : String)
  | llmError (msg : String)
deriving Repr, DecidableEq

/-- Translation of the retry decorator of llm.py: attempts numbered from 1 up
to the retry bound, returning the first success; every exception is caught
and the last one re-raised after the final attempt; there is no delay between
attempts. The attempt-indexed function models the environment seen by each
try. -/
def retryCallFrom (f : Nat → Except String α) (attempt : Nat) : Nat → Except String α
  | 0 => .error "Max retries exceeded"
  | remaining + 1 =>
    match f attempt with
    | .ok a => .ok a
    | .error e => if remaining = 0 then .error e else retryCallFrom f (attempt + 1) remaining

def retryCall (f : Nat → Except String α) (maxRetries : Nat) : Except String α :=
  retryCallFrom f 1 maxRetries

/-- Modelled from the spec: generate_json is invoked on the LLM object by
both dispatch loops but is defined nowhere under the sources (llm.py has no
such method). Per the spec, the call performs JSON-constrained generation in
which a transient transport failure is retried up to 3 attempts with no
backoff, while a non-transport failure (including an undecodable payload) is
not retried and is surfaced immediately. The backend is indexed by attempt
number; the model has no notion of time, so the absence of backoff shows up
as nothing happening between consecutive attempts. -/
def generateJsonFrom (backend : Nat → BackendResult) (attempt : Nat) : Nat → Except LLMFailure Value
  | 0 => .error (.llmError "Max retries exceeded")
  | remaining + 1 =>
    match backend attempt with
    | .decoded v => .ok v
    | .invalid msg => .error (.llmError msg)
    | .transportErr msg =>
      if remaining = 0 then .error (.transport msg)
      else generateJsonFrom backend (attempt + 1) remaining

def generate_json (backend : Nat → BackendResult) : Except LLMFailure Value :=
  generateJsonFrom backend 1 3

/-- Translation of the decision getter of run_agent.py and base_subagent.py:
call generate_json, then reject any decoded value that is not a dict by
raising an LLMException. -/
def getLlmDecision (backend : Nat → BackendResult) : Except LLMFailure Value :=
  match generate_json backend with
  | .error e => .error e
  | .ok v => if isDict v then .ok v else .error (.llmError "Decisione non è dict")

/-- Per-iteration oracle outcome as the dispatch loop sees it: either the
decoded value generate_json returned, or the message of a raised
LLMException. -/
inductive OracleOutcome where
  | ok (v : Value)
  | err (msg : String)

/-- The loop's fixed collaborators: the name-keyed method dict built at
startup, the plugin object's callables (a raised exception is the error
branch carrying the exception text), the raw-text generate fallback the error
handler invokes with the current prompt, and the prompt renderer folding the
memory entries read this iteration and the current state into the oracle
prompt. -/
structure LoopEnv where
  methodDict : List (String × Value)
  cap : String → List (String × Value) → Except String Value
  rawFallback : String → Except String String
  renderPrompt : List Value → Value → String

/-- How a finite run ends: the oracle decided to stop; a fatal LLM failure,
carrying what the raw-text fallback surfaced for the operator; or the script
of outcomes ran out with the loop still going. -/
inductive LoopExit where
  | stopped
  | failed (surfaced : Except String String)
  | outOfScript
deriving Repr

/-- A finite run's observables: the final memory store, the capability
invocations made (name with converted arguments), the final loop state, and
how the run ended. -/
structure LoopResult where
  memory : List MemRecord
  calls : List (String × List (String × Value))
  state : Value
  exit : LoopExit

/-- Registry resolution: the membership test on the method dict succeeds
exactly for string action names among its keys. -/
def resolveAction (methodDict : List (String × Value)) (actionVal : Value) : Option (String × Value) :=
  match actionVal with
  | .vstr a =>
    match lookupKey methodDict a with
    | some spec => some (a, spec)
    | none => none
  | _ => none

/-- Translation of the method executor: convert the arguments against the
resolved spec and call the bound plugin method with them. A non-mapping args
value raises before any call is made, as the items() access does in Python.
Returns the outcome together with the capability invocations performed. -/
def executeMethod (env : LoopEnv) (a : String) (spec : Value) (argsVal : Value) :
    Except String Value × List (String × List (String × Value)) :=
  match argsVal with
  | .vdict args =>
    let conv := convertParameterTypes args spec
    (env.cap a conv, [(a, conv)])
  | w =>
    (.error (squote ++ pyTypeName w ++ squote ++ " object has no attribute " ++ squote ++ "items" ++ squote), [])

/-- Translation of the action executor: an unknown action yields the
structured error written by the source (message Metodo ... non trovato) and
no capability call; a found method runs with converted arguments, and a
raised exception becomes the structured error carrying its message. In every
branch the memory record receives the result merged into the stored decision
value, with exactly one update. -/
def executeAction (env : LoopEnv) (record : MemRecord) (actionVal : Value) (argsVal : Value) :
    Value × MemRecord × List (String × List (String × Value)) :=
  match resolveAction env.methodDict actionVal with
  | none =>
    let errState := Value.vdict [("error", .vstr ("Metodo " ++ pyStr actionVal ++ " non trovato"))]
    (errState, ⟨record.agentType, setResult record.value errState, record.updates + 1⟩, [])
  | some (a, spec) =>
    match executeMethod env a spec argsVal with
    | (.ok state, calls) =>
      (state, ⟨record.agentType, setResult record.value state, record.updates + 1⟩, calls)
    | (.error msg, calls) =>
      let errState := Value.vdict [("error", .vstr msg)]
      (errState, ⟨record.agentType, setResult record.value errState, record.updates + 1⟩, calls)

/-- Translation of the decision loop of run_agent.py and base_subagent.py,
run over a finite script of oracle outcomes. Each iteration reads this
scope's memory, renders the prompt, and either: breaks on a truthy stop flag;
breaks fatally on an LLMException or a non-dict decision, first issuing the
raw-text fallback on the same prompt and surfacing its outcome; or saves the
decision as a new record of this scope, executes the action, updates the
record with the result and continues with the result as the new state. The
fixed one-second post-iteration delay is timing only and is not modelled. -/
def runLoop (env : LoopEnv) (scope : Option String) :
    List MemRecord → Value → List OracleOutcome → LoopResult
  | mem, st, [] => ⟨mem, [], st, .outOfScript⟩
  | mem, st, outcome :: rest =>
    let prompt := env.renderPrompt (readMemories scope mem) st
    match outcome with
    | .err _ => ⟨mem, [], st, .failed (env.rawFallback prompt)⟩
    | .ok v =>
      match v with
      | .vdict d =>
        if pyTruthy ((lookupKey d "stop").getD .vnone) then ⟨mem, [], st, .stopped⟩
        else
          let actionVal := (lookupKey d "action").getD .vnone
          let argsVal := (lookupKey d "args").getD (.vdict [])
          let record : MemRecord := ⟨scope, .vdict d, 0⟩
          match executeAction env record actionVal argsVal with
          | (result, record2, calls) =>
            let res := runLoop env scope (mem ++ [record2]) result rest
            ⟨res.memory, calls ++ res.calls, res.state, res.exit⟩
      | _ => ⟨mem, [], st, .failed (env.rawFallback prompt)⟩

/-- The message stored under the error key of a structured error result;
used to compare error results by their message. -/
def errMsgOf (v : Value) : Option String :=
  match dictGet v "error" with
  | some (.vstr s) => some s
  | _ => none

/-- A method spec declaring one parameter of the mapping type tag. -/
def dictSpecM : Value :=
  .vdict [("parameters", .vdict [("m", .vdict [("type", .vstr "dict")])])]

/-- A zero-parameter action spec named noop, as in the spec's scenario A. -/
def noopSpec : Value :=
  .vdict [("name", .vstr "noop"), ("description", .vstr "do nothing"), ("parameters", .vdict [])]

/-- A zero-parameter action spec whose capability always raises. -/
def boomSpec : Value :=
  .vdict [("name", .vstr "boom"), ("description", .vstr "always raises"), ("parameters", .vdict [])]

/-- Concrete plugin callables for the demonstration runs: noop returns None,
boom raises with message exploded. -/
def demoCap : String → List (String × Value) → Except String Value :=
  fun a _ =>
    if a = "noop" then .ok .vnone
    else if a = "boom" then .error "exploded"
    else .error "object has no attribute"

/-- A concrete loop environment for the demonstration runs, with a registry
holding noop and boom, a raw fallback echoing its prompt, and a renderer that
depends on the memory entries it is given. -/
def demoEnv : LoopEnv :=
  ⟨[("noop", noopSpec), ("boom", boomSpec)], demoCap,
    fun p => .ok ("RAW:" ++ p),
    fun mems st => "PROMPT:" ++ toString mems.length ++ ":" ++ pyTypeName st⟩

def noopDecisionPairs : List (String × Value) :=
  [("action", .vstr "noop"), ("args", .vdict []), ("reason", .vstr "t"), ("stop", .vbool false)]

def noopDecision : Value := .vdict noopDecisionPairs

def stopDecisionPairs : List (String × Value) :=
  [("action", .vstr "noop"), ("args", .vdict []), ("reason", .vstr "t"), ("stop", .vbool true)]

def stopDecision : Value := .vdict stopDecisionPairs

def missingDecisionPairs : List (String × Value) :=
  [("action", .vstr "missing"), ("args", .vdict []), ("reason", .vstr "t"), ("stop", .vbool false)]

def missingDecision : Value := .vdict missingDecisionPairs

def boomDecisionPairs : List (String × Value) :=
  [("action", .vstr "boom"), ("args", .vdict []), ("reason", .vstr "t"), ("stop", .vbool false)]

def boomDecision : Value := .vdict boomDecisionPairs

/-- The claim's reading of the memory fold, stated from the spec's words for
comparison with readMemories (which is translated from the source): every
loop, the main one included, sees exactly the rows of its own scope. -/
def scopeOnlyRead (scope : Option String) (store : List MemRecord) : List Value :=
  (store.filter (fun r => r.agentType = scope)).map (fun r => r.value)

/-- A memory row created under the post agent's scope. -/
def foreignRecord : MemRecord := ⟨some "post", .vstr "x", 1⟩

/-- C1 counterexample: coercing the malformed mapping string against the
mapping type tag does NOT propagate a hard failure to the caller — the inner
dict conversion raises a JSON decode error, but the per-parameter converter
catches it (its except clause names JSONDecodeError) and silently substitutes
the raw value, and the whole coercion returns normally with the raw string,
contradicting the claim that the mapping tag propagates malformed input. -/
theorem C1_mapping_decode_error_swallowed_cx :
    convertToDictE (.vstr "\x7bbad") = .error (.jsonDecodeError "Expecting property name") ∧
    convertSingleParameter (.vstr "\x7bbad") (.vstr "dict") = .vstr "\x7bbad" ∧
    convertParameterTypes [("m", .vstr "\x7bbad")] dictSpecM = [("m", .vstr "\x7bbad")] :=
  ⟨rfl, rfl, rfl⟩

/-- C1 (amended): for every raw string argument that fails to parse as JSON,
coercion against the mapping type tag raises a JSON decode error inside the
dict conversion, but the per-parameter layer catches it and substitutes the
raw value, and the full coercion returns normally — the mapping tag is
swallowed at this layer exactly like every other tag. -/
theorem C1_mapping_decode_error_substituted (s e : String) (h : jsonLoads s = .error e) :
    convertToDictE (.vstr s) = .error (.jsonDecodeError e) ∧
    convertSingleParameter (.vstr s) (.vstr "dict") = .vstr s ∧
    convertParameterTypes [("m", .vstr s)] dictSpecM = [("m", .vstr s)] := by
  refine ⟨by simp [convertToDictE, h], ?_, ?_⟩
  · simp [convertSingleParameter, convertSingleParameterE, convertToDictE, h]
  · simp [convertParameterTypes, dictSpecM, dictGetD, dictGet, lookupKey, dictSet,
      convertSingleParameter, convertSingleParameterE, convertToDictE, h]

/-- Witness for C1 (amended) at the concrete malformed string. -/
theorem C1_mapping_decode_error_substituted_witness :
    convertToDictE (.vstr "\x7bxy") = .error (.jsonDecodeError "Expecting property name") ∧
    convertSingleParameter (.vstr "\x7bxy") (.vstr "dict") = .vstr "\x7bxy" ∧
    convertParameterTypes [("m", .vstr "\x7bxy")] dictSpecM = [("m", .vstr "\x7bxy")] :=
  C1_mapping_decode_error_substituted "\x7bxy" "Expecting property name" rfl

/-- C2: the oracle call decide (generate_json plus the dict check of the
decision getter) retries a transient transport failure, succeeding on the
third attempt after two transport failures; after three transport failures
the last transport error is surfaced and no fourth attempt is made; a
non-transport failure on the first attempt is surfaced immediately without
consulting any later attempt; and a structurally invalid decoded payload (a
non-dict value) is rejected immediately by the decision getter without any
retry. The model is untimed, matching the absence of backoff. -/
theorem C2_retry_policy :
    (∀ (b : Nat → BackendResult) (m1 m2 : String) (v : Value),
      b 1 = .transportErr m1 → b 2 = .transportErr m2 → b 3 = .decoded v →
      generate_json b = .ok v) ∧
    (∀ (b : Nat → BackendResult) (m1 m2 m3 : String),
      b 1 = .transportErr m1 → b 2 = .transportErr m2 → b 3 = .transportErr m3 →
      generate_json b = .error (.transport m3)) ∧
    (∀ (b : Nat → BackendResult) (msg : String),
      b 1 = .invalid msg → generate_json b = .error (.llmError msg)) ∧
    (∀ (b : Nat → BackendResult) (v : Value),
      b 1 = .decoded v → isDict v = false →
      getLlmDecision b = .error (.llmError "Decisione non è dict")) := by
  refine ⟨?_, ?_, ?_, ?_⟩
  · intro b m1 m2 v h1 h2 h3
    simp [generate_json, generateJsonFrom, h1, h2, h3]
  · intro b m1 m2 m3 h1 h2 h3
    simp [generate_json, generateJsonFrom, h1, h2, h3]
  · intro b msg h1
    simp [generate_json, generateJsonFrom, h1]
  · intro b v h1 h2
    simp [getLlmDecision, generate_json, generateJsonFrom, h1, h2]

/-- A backend with transport failures on the first two attempts only. -/
def backendTransientThenOk : Nat → BackendResult
  | 1 => .transportErr "t1"
  | 2 => .transportErr "t2"
  | _ => .decoded (.vdict [])

/-- A backend failing at the transport level on every attempt. -/
def backendAllTransport : Nat → BackendResult
  | 1 => .transportErr "t1"
  | 2 => .transportErr "t2"
  | _ => .transportErr "t3"

/-- A backend whose every attempt fails in a non-transport way. -/
def backendInvalid : Nat → BackendResult := fun _ => .invalid "bad payload"

/-- A backend decoding to a bare JSON array on every attempt. -/
def backendArray : Nat → BackendResult := fun _ => .decoded (.vlist [])

/-- Witness for C2 at concrete backends. -/
theorem C2_retry_policy_witness :
    generate_json backendTransientThenOk = .ok (.vdict []) ∧
    generate_json backendAllTransport = .error (.transport "t3") ∧
    generate_json backendInvalid = .error (.llmError "bad payload") ∧
    getLlmDecision backendArray = .error (.llmError "Decisione non è dict") :=
  ⟨C2_retry_policy.1 backendTransientThenOk "t1" "t2" (.vdict []) rfl rfl rfl,
    C2_retry_policy.2.1 backendAllTransport "t1" "t2" "t3" rfl rfl rfl,
    C2_retry_policy.2.2.1 backendInvalid "bad payload" rfl,
    C2_retry_policy.2.2.2 backendArray (.vlist []) rfl rfl⟩

/-- C3: whenever the oracle's decoded output for an iteration is not a JSON
object (a bare array, string, number, boolean or null), the loop ends in the
failed state with no memory change and no capability call; the raw-text
fallback is issued on exactly the prompt rendered this iteration and its
outcome is surfaced in the exit; and the remaining script is never consumed,
so there is no recovery path back into the decision cycle. -/
theorem C3_decode_failure_fatal (env : LoopEnv) (scope : Option String)
    (mem : List MemRecord) (st : Value) (v : Value) (rest : List OracleOutcome)
    (h : isDict v = false) :
    runLoop env scope mem st (.ok v :: rest) =
      ⟨mem, [], st, .failed (env.rawFallback (env.renderPrompt (readMemories scope mem) st))⟩ := by
  cases v <;> simp_all [runLoop, isDict]

/-- Witness for C3: a bare JSON array ends the demonstration loop in the
failed state, surfacing the fallback raw text, with the rest of the script
untouched. -/
theorem C3_decode_failure_fatal_witness :
    runLoop demoEnv none [] .vnone [.ok (.vlist [.vint 1]), .ok noopDecision] =
      ⟨[], [], .vnone,
        .failed (demoEnv.rawFallback (demoEnv.renderPrompt (readMemories none []) Value.vnone))⟩ :=
  C3_decode_failure_fatal demoEnv none [] .vnone (.vlist [.vint 1]) [.ok noopDecision] rfl

/-- C4 counterexample: the main loop's memory read is not filtered by scope —
with a store holding a single row created under the post agent's scope, the
main loop (which creates its rows with no agent type) still reads that
foreign row, so its prompt folds in an entry of another scope, contradicting
the claim that every loop reads exactly its own scope's entries. -/
theorem C4_main_loop_reads_foreign_scope_cx :
    readMemories none [foreignRecord] = [.vstr "x"] ∧
    scopeOnlyRead none [foreignRecord] = [] ∧
    readMemories none [foreignRecord] ≠ scopeOnlyRead none [foreignRecord] :=
  ⟨rfl, rfl, fun h => absurd (congrArg List.length h) (by decide)⟩

/-- C4 (amended): a delegated loop's read is scope-isolated — appending a row
of any other scope leaves its read unchanged — while the main loop's read is
unfiltered: every appended row, of whatever scope, appears at the end of the
entries the main loop folds into its prompt. -/
theorem C4_scope_isolation_amended :
    (∀ (ty : String) (store : List MemRecord) (r : MemRecord), r.agentType ≠ some ty →
      readMemories (some ty) (store ++ [r]) = readMemories (some ty) store) ∧
    (∀ (store : List MemRecord) (r : MemRecord),
      readMemories none (store ++ [r]) = readMemories none store ++ [r.value]) := by
  constructor
  · intro ty store r h
    simp [readMemories, subagentGetPreviousMemories, List.filter_append, h]
  · intro store r
    simp [readMemories, getPreviousMemories]

/-- Witness for C4 (amended): the post-scope read ignores a tutorial-scope row. -/
theorem C4_scope_isolation_amended_witness :
    readMemories (some "post") ([] ++ [⟨some "tutorial", .vstr "y", 0⟩]) =
      readMemories (some "post") [] :=
  C4_scope_isolation_amended.1 "post" [] ⟨some "tutorial", .vstr "y", 0⟩ (by simp)

/-- C5: a decision whose stop flag is truthy ends the loop immediately in the
stopped state, with the memory store unchanged (so no record is created for
the stop decision or anything else) and no capability invoked; and in the
spec's scenario A (noop with stop false, then stop true) exactly one memory
record is created, carrying the noop decision with its result merged in and
exactly one update, and the run ends stopped. -/
theorem C5_stop_behavior :
    (∀ (env : LoopEnv) (scope : Option String) (mem : List MemRecord) (st : Value)
      (d : List (String × Value)) (rest : List OracleOutcome),
      pyTruthy ((lookupKey d "stop").getD .vnone) = true →
      runLoop env scope mem st (.ok (.vdict d) :: rest) = ⟨mem, [], st, .stopped⟩) ∧
    runLoop demoEnv none [] .vnone [.ok noopDecision, .ok stopDecision] =
      ⟨[⟨none, .vdict [("action", .vstr "noop"), ("args", .vdict []), ("reason", .vstr "t"),
          ("stop", .vbool false), ("result", Value.vnone)], 1⟩],
        [("noop", [])], .vnone, .stopped⟩ := by
  refine ⟨?_, rfl⟩
  intro env scope mem st d rest h
  simp [runLoop, h]

/-- Witness for C5 at a concrete stop decision. -/
theorem C5_stop_behavior_witness :
    runLoop demoEnv none [] .vnone [.ok (.vdict stopDecisionPairs)] =
      ⟨[], [], .vnone, .stopped⟩ :=
  C5_stop_behavior.1 demoEnv none [] .vnone stopDecisionPairs [] rfl

/-- C6 counterexample: dispatching an action absent from the registry yields
the structured error whose message is Metodo missing non trovato — not the
literal method not found the claim states — while the rest of the claim's
behavior (recorded in the decision's memory record, loop proceeds to the next
iteration and stops there) does hold in the same run. -/
theorem C6_not_found_message_cx :
    runLoop demoEnv none [] .vnone [.ok missingDecision, .ok stopDecision] =
      ⟨[⟨none, .vdict [("action", .vstr "missing"), ("args", .vdict []), ("reason", .vstr "t"),
          ("stop", .vbool false),
          ("result", .vdict [("error", .vstr "Metodo missing non trovato")])], 1⟩],
        [], .vdict [("error", .vstr "Metodo missing non trovato")], .stopped⟩ ∧
    errMsgOf (.vdict [("error", .vstr "Metodo missing non trovato")]) =
      some "Metodo missing non trovato" ∧
    Value.vdict [("error", .vstr "Metodo missing non trovato")] ≠
      Value.vdict [("error", .vstr "method not found")] :=
  ⟨rfl, rfl, fun h => absurd (congrArg errMsgOf h) (by decide)⟩

/-- C6 (amended): for every decision naming an action absent from the
registry, dispatch yields the structured error object whose error message is
Metodo followed by the action name and non trovato, that result is merged
into the decision's memory record with one update and no capability is
called, and the loop proceeds to the next iteration of the script with the
error object as the new loop state, rather than terminating. -/
theorem C6_not_found_amended (env : LoopEnv) (scope : Option String)
    (mem : List MemRecord) (st : Value) (d : List (String × Value))
    (rest : List OracleOutcome) (a : String)
    (hstop : pyTruthy ((lookupKey d "stop").getD .vnone) = false)
    (haction : (lookupKey d "action").getD .vnone = .vstr a)
    (hmiss : lookupKey env.methodDict a = none) :
    runLoop env scope mem st (.ok (.vdict d) :: rest) =
      runLoop env scope
        (mem ++ [⟨scope,
          setResult (.vdict d) (.vdict [("error", .vstr ("Metodo " ++ a ++ " non trovato"))]), 1⟩])
        (.vdict [("error", .vstr ("Metodo " ++ a ++ " non trovato"))]) rest := by
  simp [runLoop, hstop, haction, executeAction, resolveAction, hmiss, pyStr]

/-- Witness for C6 (amended) at the concrete unknown action. -/
theorem C6_not_found_amended_witness :
    runLoop demoEnv none [] .vnone [.ok (.vdict missingDecisionPairs)] =
      runLoop demoEnv none
        ([] ++ [⟨none,
          setResult (.vdict missingDecisionPairs)
            (.vdict [("error", .vstr ("Metodo " ++ "missing" ++ " non trovato"))]), 1⟩])
        (.vdict [("error", .vstr ("Metodo " ++ "missing" ++ " non trovato"))]) [] :=
  C6_not_found_amended demoEnv none [] .vnone missingDecisionPairs [] "missing" rfl rfl rfl

/-- C7: for every decision whose action resolves in the registry but whose
capability raises, the exception is caught and its message becomes the
structured error object; that object is merged into the decision's memory
record with one update; the error object becomes the new loop state; and the
loop continues with the rest of the script (the capability call itself is
recorded in the call trace), rather than halting. -/
theorem C7_capability_error_nonfatal (env : LoopEnv) (scope : Option String)
    (mem : List MemRecord) (st : Value) (d : List (String × Value))
    (rest : List OracleOutcome) (a : String) (spec : Value)
    (args : List (String × Value)) (msg : String)
    (hstop : pyTruthy ((lookupKey d "stop").getD .vnone) = false)
    (haction : (lookupKey d "action").getD .vnone = .vstr a)
    (hfound : lookupKey env.methodDict a = some spec)
    (hargs : (lookupKey d "args").getD (.vdict []) = .vdict args)
    (hcap : env.cap a (convertParameterTypes args spec) = .error msg) :
    runLoop env scope mem st (.ok (.vdict d) :: rest) =
      ⟨(runLoop env scope
          (mem ++ [⟨scope, setResult (.vdict d) (.vdict [("error", .vstr msg)]), 1⟩])
          (.vdict [("error", .vstr msg)]) rest).memory,
        (a, convertParameterTypes args spec) ::
          (runLoop env scope
            (mem ++ [⟨scope, setResult (.vdict d) (.vdict [("error", .vstr msg)]), 1⟩])
            (.vdict [("error", .vstr msg)]) rest).calls,
        (runLoop env scope
          (mem ++ [⟨scope, setResult (.vdict d) (.vdict [("error", .vstr msg)]), 1⟩])
          (.vdict [("error", .vstr msg)]) rest).state,
        (runLoop env scope
          (mem ++ [⟨scope, setResult (.vdict d) (.vdict [("error", .vstr msg)]), 1⟩])
          (.vdict [("error", .vstr msg)]) rest).exit⟩ := by
  simp [runLoop, hstop, haction, hargs, executeAction, resolveAction, hfound, executeMethod, hcap]

/-- Witness for C7: the raising boom action is recorded with its error
message and the loop goes on to process the stop decision. -/
theorem C7_capability_error_nonfatal_witness :
    runLoop demoEnv none [] Value.vnone [.ok (.vdict boomDecisionPairs), .ok stopDecision] =
      ⟨[⟨none, .vdict [("action", .vstr "boom"), ("args", .vdict []), ("reason", .vstr "t"),
          ("stop", .vbool false), ("result", .vdict [("error", .vstr "exploded")])], 1⟩],
        [("boom", [])], .vdict [("error", .vstr "exploded")], .stopped⟩ := by
  have h := C7_capability_error_nonfatal demoEnv none [] Value.vnone boomDecisionPairs
    [.ok stopDecision] "boom" boomSpec [] "exploded" rfl rfl rfl rfl rfl
  exact h.trans rfl

/-- C8: the coercion round-trip of the spec — the string 3 against the
integer tag yields the integer 3; the string true against the boolean tag
yields true; the string a, b, c against the list tag yields the three-element
list of trimmed strings; and a well-formed JSON object string against the
mapping tag yields the parsed mapping. -/
theorem C8_coercion_round_trip :
    convertSingleParameter (.vstr "3") (.vstr "int") = .vint 3 ∧
    convertSingleParameter (.vstr "true") (.vstr "bool") = .vbool true ∧
    convertSingleParameter (.vstr "a, b, c") (.vstr "list") =
      .vlist [.vstr "a", .vstr "b", .vstr "c"] ∧
    convertSingleParameter (.vstr "\x7b\"x\":1\x7d") (.vstr "dict") = .vdict [("x", .vint 1)] :=
  ⟨rfl, rfl, rfl, rfl⟩

/-- Appending into a dict whose keys do not contain the new key is a plain
append. -/
theorem dictSet_append (acc : List (String × Value)) (k : String) (v : Value)
    (h : k ∉ acc.map Prod.fst) : dictSet acc k v = acc ++ [(k, v)] := by
  rw [dictSet, if_neg]
  simp only [List.any_eq_true, decide_eq_true_eq]
  rintro ⟨p, hp, hpk⟩
  exact h (hpk ▸ List.mem_map_of_mem Prod.fst hp)

/-- A fold of per-key dict assignments over pairwise-distinct keys starting
from a key-disjoint accumulator appends one converted pair per input pair. -/
theorem foldl_dictSet_map (g : String → Value → Value) :
    ∀ (args acc : List (String × Value)), (args.map Prod.fst).Nodup →
      (∀ k, k ∈ args.map Prod.fst → k ∉ acc.map Prod.fst) →
      args.foldl (fun acc2 kv => dictSet acc2 kv.1 (g kv.1 kv.2)) acc =
        acc ++ args.map (fun kv => (kv.1, g kv.1 kv.2))
  | [], acc, _, _ => by simp
  | kv :: args, acc, hnd, hdisj => by
    have hk : kv.1 ∉ acc.map Prod.fst := hdisj kv.1 (by simp)
    have step : dictSet acc kv.1 (g kv.1 kv.2) = acc ++ [(kv.1, g kv.1 kv.2)] :=
      dictSet_append acc kv.1 (g kv.1 kv.2) hk
    have hnd2 : (args.map Prod.fst).Nodup := by
      simpa using hnd.of_cons
    have hdisj2 : ∀ k, k ∈ args.map Prod.fst →
        k ∉ (acc ++ [(kv.1, g kv.1 kv.2)]).map Prod.fst := by
      intro k hkmem
      simp only [List.map_append, List.mem_append, List.map_cons, List.map_nil,
        List.mem_singleton]
      rintro (hin | hin)
      · exact hdisj k (by simp [hkmem]) hin
      · simp only [List.map_cons, List.nodup_cons] at hnd
        exact hnd.1 (hin ▸ hkmem)
    calc (kv :: args).foldl (fun acc2 kv2 => dictSet acc2 kv2.1 (g kv2.1 kv2.2)) acc
        = args.foldl (fun acc2 kv2 => dictSet acc2 kv2.1 (g kv2.1 kv2.2))
            (acc ++ [(kv.1, g kv.1 kv.2)]) := by
          simp [step]
      _ = acc ++ [(kv.1, g kv.1 kv.2)] ++ args.map (fun kv2 => (kv2.1, g kv2.1 kv2.2)) :=
          foldl_dictSet_map g args (acc ++ [(kv.1, g kv.1 kv.2)]) hnd2 hdisj2
      _ = acc ++ (kv :: args).map (fun kv2 => (kv2.1, g kv2.1 kv2.2)) := by simp

/-- C9: for raw argument mappings (whose keys are distinct, as Python dict
keys always are) and any method spec, the coercer's output has exactly the
keys of the input in order — so unknown keys are kept (with the raw value, as
the second conjunct states) and declared parameters absent from the input are
never added, in particular declared defaults are never injected. -/
theorem C9_key_preservation (args : List (String × Value)) (spec : Value)
    (h : (args.map Prod.fst).Nodup) :
    (convertParameterTypes args spec).map Prod.fst = args.map Prod.fst ∧
    (∀ k v, (k, v) ∈ args →
      dictGet (dictGetD spec "parameters" (.vdict [])) k = none →
      (k, v) ∈ convertParameterTypes args spec) := by
  have hfun : (fun (acc2 : List (String × Value)) (kv : String × Value) =>
      match dictGet (dictGetD spec "parameters" (.vdict [])) kv.1 with
      | none => dictSet acc2 kv.1 kv.2
      | some pspec => dictSet acc2 kv.1 (convertSingleParameter kv.2 (dictGetD pspec "type" (.vstr "str")))) =
      (fun (acc2 : List (String × Value)) (kv : String × Value) => dictSet acc2 kv.1
        (match dictGet (dictGetD spec "parameters" (.vdict [])) kv.1 with
        | none => kv.2
        | some pspec => convertSingleParameter kv.2 (dictGetD pspec "type" (.vstr "str")))) := by
    funext acc2 kv
    cases dictGet (dictGetD spec "parameters" (.vdict [])) kv.1 <;> rfl
  have hrep : convertParameterTypes args spec =
      args.map (fun kv => (kv.1,
        match dictGet (dictGetD spec "parameters" (.vdict [])) kv.1 with
        | none => kv.2
        | some pspec => convertSingleParameter kv.2 (dictGetD pspec "type" (.vstr "str")))) := by
    have := foldl_dictSet_map
      (fun k v =>
        match dictGet (dictGetD spec "parameters" (.vdict [])) k with
        | none => v
        | some pspec => convertSingleParameter v (dictGetD pspec "type" (.vstr "str")))
      args [] h (by simp)
    simp only [convertParameterTypes]
    rw [hfun]
    simpa using this
  constructor
  · rw [hrep]
    simp
  · intro k v hmem hnone
    rw [hrep]
    refine List.mem_map.mpr ⟨(k, v), hmem, ?_⟩
    simp [hnone]

/-- Witness for C9 at a concrete argument mapping with one declared and one
unknown key. -/
theorem C9_key_preservation_witness :
    (convertParameterTypes [("a", Value.vstr "3"), ("zz", Value.vstr "q")]
        (.vdict [("parameters", .vdict [("a", .vdict [("type", .vstr "int")])])])).map Prod.fst =
      [("a", Value.vstr "3"), ("zz", Value.vstr "q")].map Prod.fst :=
  (C9_key_preservation [("a", Value.vstr "3"), ("zz", Value.vstr "q")]
    (.vdict [("parameters", .vdict [("a", .vdict [("type", .vstr "int")])])]) (by decide)).1

/-- C10: a raw value of None is returned unchanged by the per-parameter
coercer whatever the declared type tag is (the None check precedes the tag
dispatch), and in particular a declared integer parameter whose raw value is
None is delivered to the capability as None, as the concrete conjunct shows. -/
theorem C10_none_passthrough :
    (∀ ptype : Value, convertSingleParameter Value.vnone ptype = Value.vnone) ∧
    convertParameterTypes [("n", Value.vnone)]
        (.vdict [("parameters", .vdict [("n", .vdict [("type", .vstr "int")])])]) =
      [("n", Value.vnone)] :=
  ⟨fun _ => rfl, rfl⟩

end NightAssistant
